import Mathlib

/-!
Shallow embedding of the DMX512/RDM driver core (esp_dmx): the RDM wire
codec (`rdm_tools.c`), start-code validation (`dmx_caps.h`), the receive
interrupt handler (`intr_handlers.h`), the queued-message responder handler
and the device-label registration path.

Buffers of C `uint8_t` are modelled as `List Nat` whose entries are byte
values; machine-integer arithmetic is `Nat` with explicit `% 2 ^ w` at the
points where the C types truncate.
-/

set_option maxRecDepth 8000

namespace EspDmx

/-- Byte of `data` at index `i`. A C pointer read past the supplied buffer
(out of bounds) is modelled as reading `0`; every theorem below avoids
depending on bytes the C code could not legally read. -/
def byteAt (data : List Nat) (i : Nat) : Nat := data.getD i 0

/-! ### Constants from src/src/dmx_caps.h -/

def RDM_MAX_UID : Nat := 0xfffffffffffe

def RDM_DELIMITER : Nat := 0xaa

def RDM_PREAMBLE : Nat := 0xfe

def DMX_MAX_PACKET_SIZE : Nat := 513

def DMX_SC : Nat := 0x00

def RDM_SC : Nat := 0xcc

/-- Modelled from the spec: `RDM_SUB_SC` lives in rdm_constants.h, which is
not under src/; dmx_caps.h's `RDM_SC_SUB` and spec §4.3 both give `0x01`. -/
def RDM_SUB_SC : Nat := 0x01

/-- Modelled from the spec: the RDM command-class value for a discovery
command response (rdm_constants.h is not under src/; value per E1.20). -/
def RDM_DISCOVERY_COMMAND_RESPONSE : Nat := 0x11

/-- Modelled from the spec: the DISC_UNIQUE_BRANCH parameter ID
(rdm_constants.h is not under src/; value per E1.20). -/
def RDM_PID_DISC_UNIQUE_BRANCH : Nat := 0x0001

/-- The event record filled in by `rdm_parse` (`rdm_event_t`). The caller
passes the record in; fields the C code does not store keep their prior
values. -/
structure RdmEvent where
  destination_uid : Nat
  source_uid : Nat
  tn : Nat
  port_id : Nat
  message_count : Nat
  sub_device : Nat
  cc : Nat
  pid : Nat
  pdl : Nat
  checksum_is_valid : Bool
deriving DecidableEq, Repr

/-- Byte `k` (little-endian significance, as `((uint8_t *)&x)[k]` on the
ESP32) of a machine integer `x`. -/
def byteOf (x k : Nat) : Nat := x / 256 ^ k % 256

/-- `buf_to_uid` from src/src/rdm_tools.c. The C local `uint64_t val` is
never initialized and only its bytes 0..5 are stored before `val` is
returned, so bytes 6 and 7 keep whatever the stack held; `junk` is that
prior content of the two high bytes (16 bits). -/
def buf_to_uid (junk : Nat) (buf : List Nat) : Nat :=
  byteAt buf 5 + 256 * byteAt buf 4 + 256 ^ 2 * byteAt buf 3 +
    256 ^ 3 * byteAt buf 2 + 256 ^ 4 * byteAt buf 1 + 256 ^ 5 * byteAt buf 0 +
    2 ^ 48 * (junk % 2 ^ 16)

/-- `uidcpy` from src/src/impl/intr_handlers.h — byte-for-byte the same code
as `buf_to_uid`, including the uninitialized high bytes of `val`. -/
def uidcpy (junk : Nat) (buf : List Nat) : Nat :=
  byteAt buf 5 + 256 * byteAt buf 4 + 256 ^ 2 * byteAt buf 3 +
    256 ^ 3 * byteAt buf 2 + 256 ^ 4 * byteAt buf 1 + 256 ^ 5 * byteAt buf 0 +
    2 ^ 48 * (junk % 2 ^ 16)

/-- `bswap64` on a 64-bit value: reverses the eight bytes. -/
def bswap64 (x : Nat) : Nat :=
  byteOf x 7 + 256 * byteOf x 6 + 256 ^ 2 * byteOf x 5 + 256 ^ 3 * byteOf x 4 +
    256 ^ 4 * byteOf x 3 + 256 ^ 5 * byteOf x 2 + 256 ^ 6 * byteOf x 1 +
    256 ^ 7 * byteOf x 0

/-- `uid_to_buf` from src/src/rdm_tools.c: `uid = bswap64(uid) >> 16` then
`memcpy(buf, &uid, 6)` — the six bytes copied are the low-order (little
endian) bytes 0..5 of the shifted value. -/
def uid_to_buf (uid : Nat) : List Nat :=
  [byteOf (bswap64 (uid % 2 ^ 64) / 2 ^ 16) 0,
   byteOf (bswap64 (uid % 2 ^ 64) / 2 ^ 16) 1,
   byteOf (bswap64 (uid % 2 ^ 64) / 2 ^ 16) 2,
   byteOf (bswap64 (uid % 2 ^ 64) / 2 ^ 16) 3,
   byteOf (bswap64 (uid % 2 ^ 64) / 2 ^ 16) 4,
   byteOf (bswap64 (uid % 2 ^ 64) / 2 ^ 16) 5]

/-- The discovery-response preamble scan in `rdm_parse`: the first index in
0..6 holding `RDM_DELIMITER`, else 7 (the loop
`for (; preamble_len < 7; ++preamble_len)`). -/
def findPreambleLen (d : List Nat) : Nat :=
  if byteAt d 0 = RDM_DELIMITER then 0
  else if byteAt d 1 = RDM_DELIMITER then 1
  else if byteAt d 2 = RDM_DELIMITER then 2
  else if byteAt d 3 = RDM_DELIMITER then 3
  else if byteAt d 4 = RDM_DELIMITER then 4
  else if byteAt d 5 = RDM_DELIMITER then 5
  else if byteAt d 6 = RDM_DELIMITER then 6
  else 7

/-- Decode of one interleaved byte pair in the `rdm_parse` discovery branch:
`response[j] & 0x55 | response[j+1] & 0xaa`. -/
def decodePair (b0 b1 : Nat) : Nat := (b0 &&& 0x55) ||| (b1 &&& 0xaa)

/-- The 64-bit `uid` assembled by the discovery decode loop of `rdm_parse`
(local initialized to 0; byte `i` is stored from the pair at `j = 2*(5-i)`). -/
def discUid (resp : List Nat) : Nat :=
  decodePair (byteAt resp 10) (byteAt resp 11) +
    256 * decodePair (byteAt resp 8) (byteAt resp 9) +
    256 ^ 2 * decodePair (byteAt resp 6) (byteAt resp 7) +
    256 ^ 3 * decodePair (byteAt resp 4) (byteAt resp 5) +
    256 ^ 4 * decodePair (byteAt resp 2) (byteAt resp 3) +
    256 ^ 5 * decodePair (byteAt resp 0) (byteAt resp 1)

/-- The `uint16_t sum` accumulated by the discovery decode loop of
`rdm_parse`, in loop order `i = 5 .. 0` (pairs `j = 0, 2, .., 10`):
`sum += uid_byte + 0xff`. -/
def discSum (resp : List Nat) : Nat :=
  List.foldl
    (fun s k =>
      (s + (decodePair (byteAt resp (2 * k)) (byteAt resp (2 * k + 1)) + 0xff)) % 65536)
    0 (List.range 6)

/-- The big-endian 16-bit checksum decoded from response bytes 12..15 in the
`rdm_parse` discovery branch. -/
def discChecksum (resp : List Nat) : Nat :=
  256 * decodePair (byteAt resp 12) (byteAt resp 13) +
    decodePair (byteAt resp 14) (byteAt resp 15)

/-- The `uint16_t sum` of the `rdm_parse` standard branch: additive checksum
over bytes `[0, ml)`. -/
def stdSum (data : List Nat) (ml : Nat) : Nat :=
  List.foldl (fun s i => (s + byteAt data i) % 65536) 0 (List.range ml)

/-- `rdm_parse` from src/src/rdm_tools.c. Returns the C `bool` result paired
with the caller's event record after the call. `junkD` and `junkS` are the
uninitialized high-byte stack contents of the two `buf_to_uid` calls in the
standard branch (the discovery branch initializes its local `uid` to 0 and
needs no such parameter). -/
def rdm_parse (junkD junkS : Nat) (data : List Nat) (event : RdmEvent) :
    Bool × RdmEvent :=
  if (byteAt data 0 = RDM_PREAMBLE ∨ byteAt data 0 = RDM_DELIMITER) ∧
      17 < data.length then
    if byteAt data (findPreambleLen data) ≠ RDM_DELIMITER ∨
        data.length < findPreambleLen data + 17 then
      (false, event)
    else
      (true,
        { event with
          cc := RDM_DISCOVERY_COMMAND_RESPONSE
          pid := RDM_PID_DISC_UNIQUE_BRANCH
          source_uid := discUid (data.drop (findPreambleLen data + 1))
          checksum_is_valid :=
            discSum (data.drop (findPreambleLen data + 1)) ==
              discChecksum (data.drop (findPreambleLen data + 1)) })
  else if byteAt data 0 = RDM_SC ∧ byteAt data 1 = RDM_SUB_SC ∧
      data.length ≤ byteAt data 2 then
    (false,
      { event with
        checksum_is_valid :=
          stdSum data (byteAt data 2) ==
            256 * byteAt data (byteAt data 2) + byteAt data (byteAt data 2 + 1)
        destination_uid := buf_to_uid junkD (data.drop 3)
        source_uid := buf_to_uid junkS (data.drop 9)
        tn := byteAt data 15
        port_id := byteAt data 16
        message_count := byteAt data 17
        sub_device := 256 * byteAt data 18 + byteAt data 19
        cc := byteAt data 20
        pid := 256 * byteAt data 21 + byteAt data 22
        pdl := byteAt data 23 })
  else (false, event)

/-- The `uint16_t checksum` accumulated by the build loop of
`rdm_write_discovery_response` (`j = 5 .. 0`):
`checksum += uid_byte + (0xaa + 0x55)`. -/
def discRespChecksum (uid : Nat) : Nat :=
  List.foldl (fun c k => (c + (byteOf uid (5 - k) + (0xaa + 0x55))) % 65536)
    0 (List.range 6)

/-- The 24-byte packet built by `rdm_write_discovery_response` in
src/src/rdm_tools.c for device UID `uid` (the C function reads the UID from
the driver global and hands the bytes to `dmx_write`; the packet contents
are a pure function of the UID). Byte stores into `uint8_t` slots truncate
to the low 8 bits, hence the `% 256` on the low checksum byte. -/
def rdm_write_discovery_response (uid : Nat) : List Nat :=
  [RDM_PREAMBLE, RDM_PREAMBLE, RDM_PREAMBLE, RDM_PREAMBLE, RDM_PREAMBLE,
   RDM_PREAMBLE, RDM_PREAMBLE, RDM_DELIMITER,
   byteOf uid 5 ||| 0xaa, byteOf uid 5 ||| 0x55,
   byteOf uid 4 ||| 0xaa, byteOf uid 4 ||| 0x55,
   byteOf uid 3 ||| 0xaa, byteOf uid 3 ||| 0x55,
   byteOf uid 2 ||| 0xaa, byteOf uid 2 ||| 0x55,
   byteOf uid 1 ||| 0xaa, byteOf uid 1 ||| 0x55,
   byteOf uid 0 ||| 0xaa, byteOf uid 0 ||| 0x55,
   discRespChecksum uid / 256 ||| 0xaa, discRespChecksum uid / 256 ||| 0x55,
   discRespChecksum uid % 256 ||| 0xaa, discRespChecksum uid % 256 ||| 0x55]

/-- `DMX_START_CODE_IS_VALID` from src/src/dmx_caps.h. -/
def DMX_START_CODE_IS_VALID (sc : Nat) : Bool :=
  !decide (0x92 ≤ sc ∧ sc ≤ 0xa9) && !decide (0xab ≤ sc ∧ sc ≤ 0xcd) &&
    !decide (0xf0 ≤ sc ∧ sc ≤ 0xf7)

/-- `RDM_UID_BUFFER_TO_UINT64` from src/src/dmx_caps.h: the pure-expression
UID conversion, whose top 16 bits are zero by construction. -/
def RDM_UID_BUFFER_TO_UINT64 (buf : List Nat) : Nat :=
  byteAt buf 5 ||| byteAt buf 4 <<< 8 ||| byteAt buf 3 <<< 16 |||
    byteAt buf 2 <<< 24 ||| byteAt buf 1 <<< 32 ||| byteAt buf 0 <<< 40

/-! ### Receive interrupt handler (src/src/impl/intr_handlers.h) -/

/-- Receive-side driver state mutated by `dmx_intr_handler`. The timestamp
fields (`last_received_ts`) never feed back into the head/size bookkeeping
and are omitted; `waiting_task` models whether `buffer.waiting_task` is
non-NULL. -/
structure DmxDriver where
  data : List Nat
  head : Nat
  size : Nat
  is_busy : Bool
  is_in_break : Bool
  waiting_task : Bool
deriving DecidableEq, Repr

/-- Bytes `bytes` written into `buf` starting at offset `pos`
(`dmx_hal_read_rxfifo` into `&driver->buffer.data[driver->buffer.head]`). -/
def writeBytes (buf : List Nat) (pos : Nat) (bytes : List Nat) : List Nat :=
  buf.take pos ++ bytes ++ buf.drop (pos + bytes.length)

/-- One receive-side UART interrupt cause, as dispatched by the
`else if` chain of `dmx_intr_handler`. `dataRx` carries the RX FIFO
contents; the timeout flag only affects the omitted timestamp. -/
inductive RxEvent where
  | fifoOverflow
  | framingErr
  | brk
  | dataRx (timeout : Bool) (fifo : List Nat)
  | clash
deriving Repr

/-- One iteration of the receive half of `dmx_intr_handler`. Task
notifications, FIFO resets and interrupt-mask writes do not touch the
driver record's modelled fields. In `dataRx`, `read_len` is
`DMX_MAX_PACKET_SIZE - head` (`Nat` subtraction agrees with the C `size_t`
arithmetic whenever `head ≤ 513`, which the theorems below assume of the
initial state), clamped by the HAL to the FIFO length. -/
def dmx_intr_handler_rx (s : DmxDriver) (e : RxEvent) : DmxDriver :=
  match e with
  | .fifoOverflow => { s with is_busy := false }
  | .framingErr => { s with is_busy := false }
  | .brk =>
      { s with
        is_in_break := true
        size := if s.is_busy then s.head else s.size
        is_busy := true
        head := 0 }
  | .dataRx _ fifo =>
      let read_len := DMX_MAX_PACKET_SIZE - s.head
      let s1 :=
        if s.is_busy = true ∧ 0 < read_len then
          { s with
            is_in_break := false
            data := writeBytes s.data s.head (fifo.take (min read_len fifo.length))
            head := s.head + min read_len fifo.length }
        else { s with is_in_break := false }
      if ¬s1.is_busy = true ∨ ¬s1.waiting_task = true then s1
      else if byteAt s1.data 0 = DMX_SC ∧ s1.size < s1.head then
        { s1 with is_busy := false }
      else s1
  | .clash => s

/-- The receive ISR run over a sequence of interrupts. -/
def dmx_intr_run (s : DmxDriver) (es : List RxEvent) : DmxDriver :=
  es.foldl dmx_intr_handler_rx s

/-- A freshly-installed driver: empty 513-byte buffer, `head = 0`,
`size = 513`, idle, with a task waiting. -/
def drv0 : DmxDriver := ⟨List.replicate 513 0, 0, 513, false, false, true⟩

/-- Interrupt sequence: a break, 10 data bytes, a break (sets `size := 10`),
then 20 data bytes (drives `head` to 20 > `size`). -/
def c7events : List RxEvent :=
  [.brk, .dataRx false (List.replicate 10 0), .brk,
   .dataRx false (List.replicate 20 0)]

/-! ### Queued-message responder handler (src/unnamed/part_001) -/

/-- Modelled from the spec: RDM parameter and status constants used by the
queued-message handler (rdm_constants.h is not under src/; values per
E1.20). The claim depends only on the constants being what the handler
compares against, not on the numeric values. -/
def RDM_PID_STATUS_MESSAGE : Nat := 0x30

def RDM_STATUS_GET_LAST_MESSAGE : Nat := 0x20

def RDM_STATUS_ADVISORY : Nat := 0x2

def RDM_STATUS_WARNING : Nat := 0x3

def RDM_STATUS_ERROR : Nat := 0x4

def RDM_NR_DATA_OUT_OF_RANGE : Nat := 0x9

/-- Response classes returned by responder handlers; only these two are
produced by `rdm_rhd_queued_message`. -/
inductive RdmResponseType where
  | ack
  | nackReason
deriving DecidableEq, Repr

/-- The one header field `rdm_rhd_queued_message` touches. -/
structure RdmHeader where
  pid : Nat
deriving DecidableEq, Repr

/-- Modelled from the spec (§4.4): `rdm_queue_pop` returns the front PID of
the notification queue, or 0 when the queue is empty (the queue lives in
the driver sources, not under src/). Returns the popped PID and the
remaining queue. -/
def rdm_queue_pop (q : List Nat) : Nat × List Nat :=
  match q with
  | [] => (0, [])
  | p :: rest => (p, rest)

/-- Modelled from the spec: `rdm_emplace_word` writes a 16-bit word into the
parameter-data buffer and returns its size, 2, which the handler assigns to
`*pdl_out`. -/
def rdm_emplace_word (word : Nat) : Nat := 2

/-- `rdm_rhd_status_messages` from src/unnamed/part_001: sets `*pdl_out` to
0 (status messages unimplemented) and returns an ACK. Result is the pair
`(pdl_out, response type)`. -/
def rdm_rhd_status_messages (header : RdmHeader) : Nat × RdmResponseType :=
  (0, .ack)

/-- `rdm_rhd_queued_message` from src/unnamed/part_001. Arguments: first
parameter-data byte(s) `pd`, the caller's `*pdl_out` value `pdl0`, the
header, and the notification queue. Result: the header, `*pdl_out`, the
returned response type, and the queue after the call. -/
def rdm_rhd_queued_message (pd : List Nat) (pdl0 : Nat) (header : RdmHeader)
    (queue : List Nat) : RdmHeader × Nat × RdmResponseType × List Nat :=
  if byteAt pd 0 ≠ RDM_STATUS_GET_LAST_MESSAGE ∧
      byteAt pd 0 ≠ RDM_STATUS_ADVISORY ∧
      byteAt pd 0 ≠ RDM_STATUS_WARNING ∧
      byteAt pd 0 ≠ RDM_STATUS_ERROR then
    (header, rdm_emplace_word RDM_NR_DATA_OUT_OF_RANGE, .nackReason, queue)
  else if (rdm_queue_pop queue).1 ≠ 0 then
    (header, pdl0, .ack, (rdm_queue_pop queue).2)
  else
    ({ header with pid := RDM_PID_STATUS_MESSAGE },
      (rdm_rhd_status_messages { header with pid := RDM_PID_STATUS_MESSAGE }).1,
      (rdm_rhd_status_messages { header with pid := RDM_PID_STATUS_MESSAGE }).2,
      (rdm_queue_pop queue).2)

/-! ### Device-label registration (src/unnamed/part_000) -/

/-- Modelled from the spec: the ASCII parameter size bound (the constant's
header is not under src/; spec §4.3 and §9 give 32). -/
def RDM_ASCII_SIZE_MAX : Nat := 32

/-- C `strnlen`: length of the string up to the first NUL, capped at
`maxlen`. The list models the bytes of the C string including its
terminator. -/
def strnlen (s : List Nat) (maxlen : Nat) : Nat :=
  min (s.takeWhile (fun b => b != 0)).length maxlen

/-- C `strncpy` into an `n`-byte buffer: copies up to the first NUL or `n`
bytes, zero-filling the remainder (no terminator if the source is ≥ `n`). -/
def strncpy (src : List Nat) (n : Nat) : List Nat :=
  (src.takeWhile (fun b => b != 0)).take n ++
    List.replicate (n - ((src.takeWhile (fun b => b != 0)).take n).length) 0

/-- `rdm_register_device_label` from src/unnamed/part_000, up to the
parameter-store boundary. `param_exists` is
`dmx_parameter_exists(dmx_num, RDM_SUB_DEVICE_ROOT, RDM_PID_DEVICE_LABEL)`;
`device_label` is the C string (`none` = NULL). `none` means a `DMX_CHECK`
validation failed and the function returned false before registering
anything; `some v` means control reached `dmx_driver_add_parameter` with
`init_value = v` (the store, definition and callback steps live outside
src/ and outside the claim). When the parameter exists and the label is
NULL the C `strncpy` dereferences NULL; that case is modelled as `none`
and used by no theorem. -/
def rdm_register_device_label (param_exists : Bool)
    (device_label : Option (List Nat)) : Option (List Nat) :=
  if param_exists = false then
    match device_label with
    | none => none
    | some l =>
        if strnlen l RDM_ASCII_SIZE_MAX < RDM_ASCII_SIZE_MAX then
          some (strncpy l 32)
        else none
  else
    match device_label with
    | some l => some (strncpy l 32)
    | none => none

/-! ### Spec-side comparison definitions (refinement checks) -/

/-- Modelled from the spec (§4.3): the condition under which, per the spec
and claim C1, `rdm_parse` treats a buffer as a standard RDM packet:
`sc == 0xCC`, `sub_sc == 0x01`, `24 ≤ message_len ≤ size`. Stated from the
spec's words, for comparison with the code's guard. -/
def stdGuardSpec (d : List Nat) : Bool :=
  decide (byteAt d 0 = RDM_SC ∧ byteAt d 1 = RDM_SUB_SC ∧
    24 ≤ byteAt d 2 ∧ byteAt d 2 ≤ d.length)

/-- Modelled from the spec (§4.3 discovery parse rules): accept iff the
first 8 bytes contain the delimiter, at position `preamble_len`, and the
total length is at least `preamble_len + 17`. Stated from the spec's words,
for comparison with the code. -/
def discAcceptSpec (d : List Nat) : Bool :=
  decide (byteAt d (findPreambleLen d) = RDM_DELIMITER ∧
    findPreambleLen d + 17 ≤ d.length)

/-! ### Concrete fixtures -/

/-- An event record with all fields zero / false, standing in for the
caller's `rdm_event_t`. -/
def ev0 : RdmEvent := ⟨0, 0, 0, 0, 0, 0, 0, 0, 0, false⟩

/-- A well-formed 26-byte standard RDM packet: sc `0xCC`, sub-sc `0x01`,
`message_len = 24`, all other header bytes zero, and the correct big-endian
additive checksum `0x00E5` (= 0xcc + 0x01 + 24) in bytes 24..25. -/
def stdPkt : List Nat := [0xcc, 0x01, 24] ++ List.replicate 21 0 ++ [0x00, 0xe5]

/-- The same 26-byte buffer with `message_len` corrupted to 200 (≥ size) and
transaction number 7, which the code's guard `message_len >= size` does
accept. -/
def stdPkt2 : List Nat :=
  [0xcc, 0x01, 200, 0, 0, 0, 0, 0, 0, 0, 0, 0, 0, 0, 0, 7, 0, 0, 0, 0, 0,
   0, 0, 0, 0x00, 0xe5]

/-- A 17-byte DISC_UNIQUE_BRANCH response with a zero-length preamble: the
delimiter followed by the 16 interleaved payload bytes of UID 5. -/
def discBuf17 : List Nat := (rdm_write_discovery_response 5).drop 7

/-! ### Helper lemmas -/

theorem decodePair_encode_fin : ∀ b : Fin 256,
    decodePair (b.val ||| 0xaa) (b.val ||| 0x55) = b.val := by decide

theorem decodePair_encode (b : Nat) (h : b < 256) :
    decodePair (b ||| 0xaa) (b ||| 0x55) = b := decodePair_encode_fin ⟨b, h⟩

theorem byteOf_lt (x k : Nat) : byteOf x k < 256 := Nat.mod_lt _ (by norm_num)

theorem digits_reassemble (u : Nat) (h : u < 2 ^ 48) :
    byteOf u 0 + 256 * byteOf u 1 + 256 ^ 2 * byteOf u 2 +
      256 ^ 3 * byteOf u 3 + 256 ^ 4 * byteOf u 4 + 256 ^ 5 * byteOf u 5 = u := by
  unfold byteOf
  norm_num
  omega

theorem discRespChecksum_lt (uid : Nat) : discRespChecksum uid < 65536 := by
  have e : discRespChecksum uid =
      ((((((0 + (byteOf uid 5 + 0xff)) % 65536 + (byteOf uid 4 + 0xff)) % 65536 +
        (byteOf uid 3 + 0xff)) % 65536 + (byteOf uid 2 + 0xff)) % 65536 +
        (byteOf uid 1 + 0xff)) % 65536 + (byteOf uid 0 + 0xff)) % 65536 := rfl
  rw [e]
  exact Nat.mod_lt _ (by norm_num)

/-- Success condition of `rdm_parse`: the C function returns true exactly on
the discovery branch with a delimiter found and enough bytes. -/
theorem rdm_parse_true_iff (junkD junkS : Nat) (data : List Nat) (ev : RdmEvent) :
    (rdm_parse junkD junkS data ev).1 = true ↔
      ((byteAt data 0 = RDM_PREAMBLE ∨ byteAt data 0 = RDM_DELIMITER) ∧
        17 < data.length ∧
        byteAt data (findPreambleLen data) = RDM_DELIMITER ∧
        findPreambleLen data + 17 ≤ data.length) := by
  unfold rdm_parse
  split_ifs with h1 h2 h3
  · simp only [Bool.false_eq_true, false_iff]
    rintro ⟨-, -, hdelim, hlen⟩
    rcases h2 with h2 | h2
    · exact h2 hdelim
    · omega
  · push_neg at h2
    simp only [true_iff]
    exact ⟨h1.1, h1.2, h2.1, by omega⟩
  · simp only [Bool.false_eq_true, false_iff]
    rintro ⟨ha, hb, -, -⟩
    exact h1 ⟨ha, hb⟩
  · simp only [Bool.false_eq_true, false_iff]
    rintro ⟨ha, hb, -, -⟩
    exact h1 ⟨ha, hb⟩

theorem findPreambleLen_replicate (p : Nat) (rest : List Nat) (hp : p ≤ 7) :
    findPreambleLen (List.replicate p 0xfe ++ 0xaa :: rest) = p := by
  interval_cases p <;> rfl

theorem findPreambleLen_replicate8 (rest : List Nat) :
    findPreambleLen (List.replicate 8 0xfe ++ 0xaa :: rest) = 7 := rfl

theorem byteAt_repl_delim (p : Nat) (rest : List Nat) (hp : p ≤ 7) :
    byteAt (List.replicate p 0xfe ++ 0xaa :: rest) p = 0xaa := by
  interval_cases p <;> rfl

theorem byteAt_repl_head (p : Nat) (rest : List Nat) (h1 : 1 ≤ p) (h8 : p ≤ 8) :
    byteAt (List.replicate p 0xfe ++ 0xaa :: rest) 0 = 0xfe := by
  interval_cases p <;> rfl

/-! ### Claim theorems -/

/-- C6: `DMX_START_CODE_IS_VALID sc` is false for a byte `sc` exactly when
`sc` lies in `[0x92, 0xA9]`, `[0xAB, 0xCD]` or `[0xF0, 0xF7]`; in
particular the six range endpoints are rejected and `0x91`, `0xAA`, `0xCE`
are accepted. -/
theorem start_code_is_valid_ranges (sc : Nat) (h : sc < 256) :
    DMX_START_CODE_IS_VALID sc = false ↔
      ((0x92 ≤ sc ∧ sc ≤ 0xa9) ∨ (0xab ≤ sc ∧ sc ≤ 0xcd) ∨
        (0xf0 ≤ sc ∧ sc ≤ 0xf7)) := by
  have H : ∀ b : Fin 256, (DMX_START_CODE_IS_VALID b.val = false ↔
      ((0x92 ≤ b.val ∧ b.val ≤ 0xa9) ∨ (0xab ≤ b.val ∧ b.val ≤ 0xcd) ∨
        (0xf0 ≤ b.val ∧ b.val ≤ 0xf7))) := by decide
  exact H ⟨sc, h⟩

/-- Witness for C6 at the concrete start code `0x92`. -/
theorem start_code_is_valid_ranges_witness :
    DMX_START_CODE_IS_VALID 0x92 = false ↔
      ((0x92 ≤ 0x92 ∧ 0x92 ≤ 0xa9) ∨ (0xab ≤ 0x92 ∧ 0x92 ≤ 0xcd) ∨
        (0xf0 ≤ 0x92 ∧ 0x92 ≤ 0xf7)) :=
  start_code_is_valid_ranges 0x92 (by decide)

/-- C1 (code bug): the claim says `rdm_parse` treats a buffer as a standard
RDM packet exactly when `sc = 0xCC`, `sub_sc = 0x01` and
`24 ≤ message_len ≤ size`, but the code's guard is `message_len >= size`.
The well-formed packet `stdPkt` (message_len 24, size 26) satisfies the
claim's guard yet `rdm_parse` leaves the event untouched and returns false,
while `stdPkt2` (message_len 200 > size 26) violates the claim's guard yet
is processed as a standard packet (its transaction number lands in the
event). -/
theorem rdm_parse_std_guard_diverges :
    stdGuardSpec stdPkt = true ∧ rdm_parse 0 0 stdPkt ev0 = (false, ev0) ∧
      stdGuardSpec stdPkt2 = false ∧ (rdm_parse 0 0 stdPkt2 ev0).2.tn = 7 := by
  decide

/-- C2 (code bug): on the well-formed standard RDM packet `stdPkt` — start
code `0xCC`, sub-start code `0x01`, `message_len = 24`, 26 bytes, checksum
valid — `rdm_parse` returns false (the standard branch is unreachable for
`message_len < size`, and even when it runs, the function falls through to
`return false`), where the claim requires it to return true with the parsed
header. -/
theorem rdm_parse_std_returns_false :
    byteAt stdPkt 0 = 0xcc ∧ byteAt stdPkt 1 = 0x01 ∧ byteAt stdPkt 2 = 24 ∧
      stdPkt.length = 26 ∧
      stdSum stdPkt 24 = 256 * byteAt stdPkt 24 + byteAt stdPkt 25 ∧
      (rdm_parse 0 0 stdPkt ev0).1 = false ∧
      (rdm_parse 0 0 stdPkt ev0).2 = ev0 := by
  decide

/-- C3: for every device UID up to `RDM_MAX_UID`, the discovery response is
exactly 24 bytes, starts with seven `0xFE` preamble bytes and the `0xAA`
delimiter, and `rdm_parse` on those bytes returns true with the original
UID recovered and a valid checksum. -/
theorem disc_response_roundtrip (uid junkD junkS : Nat) (ev : RdmEvent)
    (h : uid ≤ RDM_MAX_UID) :
    (rdm_write_discovery_response uid).length = 24 ∧
      (rdm_write_discovery_response uid).take 8 =
        [0xfe, 0xfe, 0xfe, 0xfe, 0xfe, 0xfe, 0xfe, 0xaa] ∧
      (rdm_parse junkD junkS (rdm_write_discovery_response uid) ev).1 = true ∧
      (rdm_parse junkD junkS (rdm_write_discovery_response uid) ev).2.source_uid =
        uid ∧
      (rdm_parse junkD junkS
          (rdm_write_discovery_response uid) ev).2.checksum_is_valid = true := by
  have hu48 : uid < 2 ^ 48 := lt_of_le_of_lt h (by norm_num [RDM_MAX_UID])
  refine ⟨rfl, rfl, ?_⟩
  have hdp : ∀ k, decodePair (byteOf uid k ||| 0xaa) (byteOf uid k ||| 0x55) =
      byteOf uid k := fun k => decodePair_encode _ (byteOf_lt uid k)
  have hred : rdm_parse junkD junkS (rdm_write_discovery_response uid) ev =
      (true,
        { ev with
          cc := RDM_DISCOVERY_COMMAND_RESPONSE
          pid := RDM_PID_DISC_UNIQUE_BRANCH
          source_uid := discUid ((rdm_write_discovery_response uid).drop 8)
          checksum_is_valid :=
            discSum ((rdm_write_discovery_response uid).drop 8) ==
              discChecksum ((rdm_write_discovery_response uid).drop 8) }) := rfl
  rw [hred]
  refine ⟨rfl, ?_, ?_⟩
  · show discUid ((rdm_write_discovery_response uid).drop 8) = uid
    have e1 : discUid ((rdm_write_discovery_response uid).drop 8) =
        decodePair (byteOf uid 0 ||| 0xaa) (byteOf uid 0 ||| 0x55) +
          256 * decodePair (byteOf uid 1 ||| 0xaa) (byteOf uid 1 ||| 0x55) +
          256 ^ 2 * decodePair (byteOf uid 2 ||| 0xaa) (byteOf uid 2 ||| 0x55) +
          256 ^ 3 * decodePair (byteOf uid 3 ||| 0xaa) (byteOf uid 3 ||| 0x55) +
          256 ^ 4 * decodePair (byteOf uid 4 ||| 0xaa) (byteOf uid 4 ||| 0x55) +
          256 ^ 5 * decodePair (byteOf uid 5 ||| 0xaa) (byteOf uid 5 ||| 0x55) := rfl
    rw [e1, hdp 0, hdp 1, hdp 2, hdp 3, hdp 4, hdp 5]
    exact digits_reassemble uid hu48
  · show (discSum ((rdm_write_discovery_response uid).drop 8) ==
      discChecksum ((rdm_write_discovery_response uid).drop 8)) = true
    have e2 : discSum ((rdm_write_discovery_response uid).drop 8) =
        ((((((0 + (decodePair (byteOf uid 5 ||| 0xaa) (byteOf uid 5 ||| 0x55) + 0xff)) % 65536 +
          (decodePair (byteOf uid 4 ||| 0xaa) (byteOf uid 4 ||| 0x55) + 0xff)) % 65536 +
          (decodePair (byteOf uid 3 ||| 0xaa) (byteOf uid 3 ||| 0x55) + 0xff)) % 65536 +
          (decodePair (byteOf uid 2 ||| 0xaa) (byteOf uid 2 ||| 0x55) + 0xff)) % 65536 +
          (decodePair (byteOf uid 1 ||| 0xaa) (byteOf uid 1 ||| 0x55) + 0xff)) % 65536 +
          (decodePair (byteOf uid 0 ||| 0xaa) (byteOf uid 0 ||| 0x55) + 0xff)) % 65536 := rfl
    have e3 : ((((((0 + (byteOf uid 5 + 0xff)) % 65536 +
          (byteOf uid 4 + 0xff)) % 65536 +
          (byteOf uid 3 + 0xff)) % 65536 +
          (byteOf uid 2 + 0xff)) % 65536 +
          (byteOf uid 1 + 0xff)) % 65536 +
          (byteOf uid 0 + 0xff)) % 65536 = discRespChecksum uid := rfl
    have e4 : discSum ((rdm_write_discovery_response uid).drop 8) =
        discRespChecksum uid := by
      rw [e2, hdp 0, hdp 1, hdp 2, hdp 3, hdp 4, hdp 5, e3]
    have e5 : discChecksum ((rdm_write_discovery_response uid).drop 8) =
        256 * decodePair (discRespChecksum uid / 256 ||| 0xaa)
            (discRespChecksum uid / 256 ||| 0x55) +
          decodePair (discRespChecksum uid % 256 ||| 0xaa)
            (discRespChecksum uid % 256 ||| 0x55) := rfl
    have hhi : discRespChecksum uid / 256 < 256 :=
      Nat.div_lt_of_lt_mul (by simpa using discRespChecksum_lt uid)
    have hlo : discRespChecksum uid % 256 < 256 := Nat.mod_lt _ (by norm_num)
    have e6 : discChecksum ((rdm_write_discovery_response uid).drop 8) =
        discRespChecksum uid := by
      rw [e5, decodePair_encode _ hhi, decodePair_encode _ hlo]
      exact Nat.div_add_mod _ 256
    rw [e4, e6]
    simp

/-- Witness for C3 at the concrete UID `0x123456789ABC`. -/
theorem disc_response_roundtrip_witness :
    (rdm_write_discovery_response 0x123456789abc).length = 24 ∧
      (rdm_write_discovery_response 0x123456789abc).take 8 =
        [0xfe, 0xfe, 0xfe, 0xfe, 0xfe, 0xfe, 0xfe, 0xaa] ∧
      (rdm_parse 0 0 (rdm_write_discovery_response 0x123456789abc) ev0).1 = true ∧
      (rdm_parse 0 0 (rdm_write_discovery_response 0x123456789abc) ev0).2.source_uid =
        0x123456789abc ∧
      (rdm_parse 0 0
          (rdm_write_discovery_response 0x123456789abc) ev0).2.checksum_is_valid =
        true :=
  disc_response_roundtrip 0x123456789abc 0 0 ev0 (by decide)

/-- C4: each source byte `B` of the DISC_UNIQUE_BRANCH codec is emitted as
`(B ||| 0xAA)` then `(B ||| 0x55)`; the decoder mask
`byte0 &&& 0x55 ||| byte1 &&& 0xAA` recovers `B`; and the 16-bit response
checksum is the sum over the six UID bytes of `(B + 0xFF)`. -/
theorem disc_codec_byte_rules (b uid k : Nat) (hb : b < 256) (hk : k < 6) :
    decodePair (b ||| 0xaa) (b ||| 0x55) = b ∧
      byteAt (rdm_write_discovery_response uid) (8 + 2 * k) =
        byteOf uid (5 - k) ||| 0xaa ∧
      byteAt (rdm_write_discovery_response uid) (8 + 2 * k + 1) =
        byteOf uid (5 - k) ||| 0x55 ∧
      discRespChecksum uid =
        (byteOf uid 0 + 0xff) + (byteOf uid 1 + 0xff) + (byteOf uid 2 + 0xff) +
          (byteOf uid 3 + 0xff) + (byteOf uid 4 + 0xff) + (byteOf uid 5 + 0xff) := by
  refine ⟨decodePair_encode b hb, ?_, ?_, ?_⟩
  · interval_cases k <;> rfl
  · interval_cases k <;> rfl
  · have e : discRespChecksum uid =
        ((((((0 + (byteOf uid 5 + 0xff)) % 65536 + (byteOf uid 4 + 0xff)) % 65536 +
          (byteOf uid 3 + 0xff)) % 65536 + (byteOf uid 2 + 0xff)) % 65536 +
          (byteOf uid 1 + 0xff)) % 65536 + (byteOf uid 0 + 0xff)) % 65536 := rfl
    have h0 := byteOf_lt uid 0
    have h1 := byteOf_lt uid 1
    have h2 := byteOf_lt uid 2
    have h3 := byteOf_lt uid 3
    have h4 := byteOf_lt uid 4
    have h5 := byteOf_lt uid 5
    rw [e]
    omega

/-- Witness for C4 at byte `0x12`, UID `0x010203040506`, pair index 2. -/
theorem disc_codec_byte_rules_witness :
    decodePair (0x12 ||| 0xaa) (0x12 ||| 0x55) = 0x12 ∧
      byteAt (rdm_write_discovery_response 0x010203040506) (8 + 2 * 2) =
        byteOf 0x010203040506 (5 - 2) ||| 0xaa ∧
      byteAt (rdm_write_discovery_response 0x010203040506) (8 + 2 * 2 + 1) =
        byteOf 0x010203040506 (5 - 2) ||| 0x55 ∧
      discRespChecksum 0x010203040506 =
        (byteOf 0x010203040506 0 + 0xff) + (byteOf 0x010203040506 1 + 0xff) +
          (byteOf 0x010203040506 2 + 0xff) + (byteOf 0x010203040506 3 + 0xff) +
          (byteOf 0x010203040506 4 + 0xff) + (byteOf 0x010203040506 5 + 0xff) :=
  disc_codec_byte_rules 0x12 0x010203040506 2 (by decide) (by decide)

/-- C5 counterexample: `discBuf17` is a 17-byte discovery response with a
zero-length preamble. The claim (and spec §4.3) accept it — the delimiter
is at position 0 and `17 ≥ 0 + 17` — but the code's entry condition
`size > 17` makes `rdm_parse` return false. -/
theorem disc_preamble_zero_rejected :
    discAcceptSpec discBuf17 = true ∧ discBuf17.length = 17 ∧
      findPreambleLen discBuf17 = 0 ∧
      rdm_parse 0 0 discBuf17 ev0 = (false, ev0) := by
  decide

/-- C5 amended: for a discovery response made of `p` preamble bytes, the
delimiter and `rest`, `rdm_parse` succeeds iff `p ≤ 7`, at least 16 payload
bytes follow the delimiter, and the total size exceeds 17 (which for
`p = 0` demands a 17th byte after the delimiter). Preamble length 8 never
parses. -/
theorem disc_preamble_accept_iff (p : Nat) (rest : List Nat)
    (junkD junkS : Nat) (ev : RdmEvent) (hp : p ≤ 8) :
    ((rdm_parse junkD junkS (List.replicate p 0xfe ++ 0xaa :: rest) ev).1 = true ↔
      (p ≤ 7 ∧ 16 ≤ rest.length ∧ (1 ≤ p ∨ 17 ≤ rest.length))) := by
  rw [rdm_parse_true_iff]
  have hlen : (List.replicate p 0xfe ++ 0xaa :: rest).length =
      p + (rest.length + 1) := by
    simp
  by_cases hp7 : p ≤ 7
  · rw [findPreambleLen_replicate p rest hp7, byteAt_repl_delim p rest hp7, hlen]
    rcases Nat.eq_zero_or_pos p with h0 | h1
    · subst h0
      simp only [show byteAt (List.replicate 0 0xfe ++ 0xaa :: rest) 0 = 0xaa
        from rfl]
      norm_num [RDM_PREAMBLE, RDM_DELIMITER]
      omega
    · rw [byteAt_repl_head p rest h1 (by omega)]
      norm_num [RDM_PREAMBLE, RDM_DELIMITER]
      omega
  · have hp8 : p = 8 := by omega
    subst hp8
    rw [findPreambleLen_replicate8, hlen]
    simp only [show byteAt (List.replicate 8 0xfe ++ 0xaa :: rest) 7 = 0xfe
      from rfl]
    norm_num [RDM_PREAMBLE, RDM_DELIMITER]

/-- Witness for C5 amended at preamble length 7 with a 16-byte payload. -/
theorem disc_preamble_accept_iff_witness :
    ((rdm_parse 0 0
        (List.replicate 7 0xfe ++ 0xaa :: List.replicate 16 0) ev0).1 = true ↔
      (7 ≤ 7 ∧ 16 ≤ (List.replicate (16 : Nat) (0 : Nat)).length ∧
        (1 ≤ 7 ∨ 17 ≤ (List.replicate (16 : Nat) (0 : Nat)).length))) :=
  disc_preamble_accept_iff 7 (List.replicate 16 0) 0 0 ev0 (by decide)

/-- One step of the receive ISR keeps `head` and `size` at or below 513. -/
theorem dmx_intr_handler_rx_bounds (s : DmxDriver) (e : RxEvent)
    (hh : s.head ≤ 513) (hs : s.size ≤ 513) :
    (dmx_intr_handler_rx s e).head ≤ 513 ∧
      (dmx_intr_handler_rx s e).size ≤ 513 := by
  cases e with
  | fifoOverflow => exact ⟨hh, hs⟩
  | framingErr => exact ⟨hh, hs⟩
  | brk =>
      refine ⟨Nat.zero_le _, ?_⟩
      show (if s.is_busy then s.head else s.size) ≤ 513
      split_ifs <;> assumption
  | dataRx t fifo =>
      simp only [dmx_intr_handler_rx, DMX_MAX_PACKET_SIZE]
      split_ifs <;> simp_all <;> omega
  | clash => exact ⟨hh, hs⟩

/-- C7 counterexample: from a fresh driver, the interrupt sequence
`c7events` (break, 10 bytes, break, 20 bytes) leaves the buffer with
`head = 20 > size = 10`: the claimed invariant `head ≤ size` is violated
after an interrupt, because the receive path deliberately lets `head` run
past the previous packet-size guess to detect frame completion. -/
theorem head_size_invariant_violated :
    (dmx_intr_run drv0 c7events).head = 20 ∧
      (dmx_intr_run drv0 c7events).size = 10 ∧
      ¬(dmx_intr_run drv0 c7events).head ≤ (dmx_intr_run drv0 c7events).size := by
  decide

/-- C7 amended: after every receive interrupt, `head ≤ 513` and
`size ≤ 513` hold (from any state satisfying those bounds, in particular a
fresh driver); the `head ≤ size` half of the claimed invariant is dropped,
as forced by the counterexample. -/
theorem head_size_bounded (init : DmxDriver) (es : List RxEvent)
    (hh : init.head ≤ 513) (hs : init.size ≤ 513) :
    (dmx_intr_run init es).head ≤ 513 ∧ (dmx_intr_run init es).size ≤ 513 := by
  induction es generalizing init with
  | nil => exact ⟨hh, hs⟩
  | cons e es ih =>
      have hstep := dmx_intr_handler_rx_bounds init e hh hs
      exact ih (dmx_intr_handler_rx init e) hstep.1 hstep.2

/-- Witness for C7's amended bound at the fresh driver and the concrete
interrupt sequence `c7events`. -/
theorem head_size_bounded_witness :
    (dmx_intr_run drv0 c7events).head ≤ 513 ∧
      (dmx_intr_run drv0 c7events).size ≤ 513 :=
  head_size_bounded drv0 c7events (by decide) (by decide)

/-- C8 (code bug): `buf_to_uid` (and the identical `uidcpy`) never writes
bytes 6 and 7 of its local `uint64_t val`, so the top 16 bits of the result
are whatever the stack held (`junk`), not zero. With residue 1, decoding
the 6-byte wire form of UID 0 yields `2^48`, whose top 16 bits are nonzero;
only the low 48 bits match the big-endian buffer (and the sibling macro
`RDM_UID_BUFFER_TO_UINT64`, which does clear the top bits), so
`uid_to_buf` followed by `buf_to_uid` is not the identity. -/
theorem buf_to_uid_top_bits_junk :
    uid_to_buf 0 = [0, 0, 0, 0, 0, 0] ∧
      buf_to_uid 1 (uid_to_buf 0) = 2 ^ 48 ∧
      uidcpy 1 (uid_to_buf 0) = 2 ^ 48 ∧
      buf_to_uid 1 (uid_to_buf 0) / 2 ^ 48 ≠ 0 ∧
      buf_to_uid 1 (uid_to_buf 0) % 2 ^ 48 = 0 ∧
      RDM_UID_BUFFER_TO_UINT64 (uid_to_buf 0) = 0 ∧
      buf_to_uid 1 (uid_to_buf 0) ≠ 0 := by
  decide

/-- C9: with a valid status-type byte, the queued-message handler pops one
PID from the queue; when the pop yields 0 (empty queue) it substitutes PID
`STATUS_MESSAGE` into the header and answers with the status-message
response (ACK, `pdl_out = 0`), and when the queue is non-empty (front PID
nonzero) it answers ACK with the queue shortened by exactly that one PID
and the header untouched. -/
theorem queued_message_dispatch (pd : List Nat) (pdl0 : Nat) (h : RdmHeader)
    (q : List Nat)
    (hvalid : byteAt pd 0 = RDM_STATUS_GET_LAST_MESSAGE ∨
      byteAt pd 0 = RDM_STATUS_ADVISORY ∨ byteAt pd 0 = RDM_STATUS_WARNING ∨
      byteAt pd 0 = RDM_STATUS_ERROR) :
    (q = [] →
      rdm_rhd_queued_message pd pdl0 h q =
        ({ h with pid := RDM_PID_STATUS_MESSAGE }, 0, RdmResponseType.ack, [])) ∧
    (q ≠ [] → q.headD 0 ≠ 0 →
      rdm_rhd_queued_message pd pdl0 h q = (h, pdl0, RdmResponseType.ack, q.tail)) := by
  have hnotnack : ¬(byteAt pd 0 ≠ RDM_STATUS_GET_LAST_MESSAGE ∧
      byteAt pd 0 ≠ RDM_STATUS_ADVISORY ∧ byteAt pd 0 ≠ RDM_STATUS_WARNING ∧
      byteAt pd 0 ≠ RDM_STATUS_ERROR) := by
    rcases hvalid with h1 | h1 | h1 | h1 <;> simp [h1]
  constructor
  · rintro rfl
    simp [rdm_rhd_queued_message, hnotnack, rdm_queue_pop,
      rdm_rhd_status_messages]
  · intro hne hhd
    match q with
    | [] => exact absurd rfl hne
    | p :: rest =>
        simp only [List.headD] at hhd
        simp [rdm_rhd_queued_message, hnotnack, rdm_queue_pop, hhd]

/-- Witness for C9: empty queue with the GET_LAST_MESSAGE status type. -/
theorem queued_message_dispatch_witness :
    rdm_rhd_queued_message [0x20] 5 ⟨0x31⟩ [] =
      (⟨RDM_PID_STATUS_MESSAGE⟩, 0, RdmResponseType.ack, []) :=
  (queued_message_dispatch [0x20] 5 ⟨0x31⟩ [] (by decide)).1 rfl

/-- C10: when the DEVICE_LABEL parameter is not yet registered, a label
whose first 32 bytes have no NUL is rejected (false, nothing registered),
and a label of length at most 31 passes validation and reaches
registration; when the parameter already exists, the label is not validated
and registration proceeds regardless. -/
theorem register_device_label_validation (l : List Nat) :
    (32 ≤ (l.takeWhile (fun b => b != 0)).length →
      rdm_register_device_label false (some l) = none) ∧
    (strnlen l RDM_ASCII_SIZE_MAX ≤ 31 →
      rdm_register_device_label false (some l) = some (strncpy l 32)) ∧
    rdm_register_device_label true (some l) = some (strncpy l 32) := by
  refine ⟨?_, ?_, rfl⟩
  · intro h
    have hlen : ¬strnlen l RDM_ASCII_SIZE_MAX < RDM_ASCII_SIZE_MAX := by
      simp only [strnlen, RDM_ASCII_SIZE_MAX]
      omega
    simp [rdm_register_device_label, hlen]
  · intro h
    have hlen : strnlen l RDM_ASCII_SIZE_MAX < RDM_ASCII_SIZE_MAX := by
      simp only [RDM_ASCII_SIZE_MAX] at h ⊢
      omega
    simp [rdm_register_device_label, hlen]

/-- Witness for C10: a 32-byte label of `0x41` has no NUL in its first 32
bytes and is rejected when the parameter is not yet registered. -/
theorem register_device_label_validation_witness :
    rdm_register_device_label false (some (List.replicate 32 0x41)) = none :=
  (register_device_label_validation (List.replicate 32 0x41)).1 (by decide)

end EspDmx
